import Mathlib

/-!
The gRPC provider schema client of tfschema (`tfschema/grpc_client.go`).

A shallow embedding of `GRPCClient` and its constructor `NewGRPCClient`.

* Go strings are Lean strings: the names handled here are text. Their bytes
  are the UTF-8 encoding, and the built-in comparison `<` of Go is the
  lexicographic comparison of those bytes.
* A Go `map[string]V` is a list of entries with pairwise distinct keys; the
  order of the list is the order in which one `range` loop happens to visit
  the entries, so a statement for every map value covers every iteration order.
* A Go `error` is its text; a nilable result is an `Option`; a pair of results
  `(x, err)` is a Lean pair.
* The remote provider and the plugin library are outside this file. Their
  operations are parameters of the model (`Interface`, `Deps`, `Env`), and the
  effects they have are threaded through explicit state (`Sys`, `Host`).
* The plugin library decides the handshake and `Dispense` from the table of
  versioned plugins in the configuration; `libraryEnv` is the environment it
  gives with the table `tfplugin.VersionedPlugins`, and `keepingProvider` is
  the provider of that library, which keeps the schema it has fetched.
-/

namespace Tfschema

/-! ## Go strings, errors and `sort.Strings` -/

/-- The UTF-8 bytes of one character. -/
def utf8Bytes (c : Char) : List Nat :=
  let v := c.toNat
  if v < 0x80 then [v]
  else if v < 0x800 then [0xC0 + v / 64, 0x80 + v % 64]
  else if v < 0x10000 then [0xE0 + v / 4096, 0x80 + v / 64 % 64, 0x80 + v % 64]
  else [0xF0 + v / 262144, 0x80 + v / 4096 % 64, 0x80 + v / 64 % 64, 0x80 + v % 64]

/-- The bytes of a Go string. -/
def bytes (s : String) : List Nat :=
  s.data.flatMap utf8Bytes

/-- Byte-wise lexicographic "less than" on byte sequences. -/
def bytesLess : List Nat → List Nat → Bool
  | _, [] => false
  | [], _ :: _ => true
  | a :: as, b :: bs =>
    if a < b then true else if b < a then false else bytesLess as bs

/-- The comparison `a < b` of Go on strings, which `sort.Strings` sorts by. -/
def stringLess (a b : String) : Bool :=
  bytesLess (bytes a) (bytes b)

/-- The comparison `a <= b` of Go on strings: `b` is not less than `a`. -/
def stringLE (a b : String) : Prop :=
  stringLess b a = false

instance (a b : String) : Decidable (stringLE a b) :=
  inferInstanceAs (Decidable (stringLess b a = false))

/-- One step of the sort: put `x` into an ascending list, in front of the
first element that is greater than `x`. -/
def insertString (x : String) : List String → List String
  | [] => [x]
  | y :: ys => if stringLess x y then x :: y :: ys else y :: insertString x ys

/-- The result of `sort.Strings(keys)`: the elements in ascending order. The
library sorts in place; an ascending arrangement of given strings is unique,
so the result does not depend on the algorithm, and insertion is used here. -/
def sortStrings (xs : List String) : List String :=
  xs.foldl (fun acc x => insertString x acc) []

/-- A Go `error` value, identified with the text `Error()` returns. -/
structure GoError where
  msg : String
deriving DecidableEq, Repr

/-- The error made by `fmt.Errorf(format, arg)` where `format` is the text
`pre` followed by one `%s` verb. -/
def Errorf (pre : String) (arg : String) : GoError :=
  ⟨pre ++ arg⟩

/-! ## Go maps -/

/-- A `map[string]β`. -/
structure GoMap (β : Type) where
  entries : List (String × β)
  nodup : (entries.map Prod.fst).Nodup

namespace GoMap

variable {β : Type}

/-- The keys in the order a `for k := range m` loop visits them. -/
def keys (m : GoMap β) : List String :=
  m.entries.map Prod.fst

/-- The number of entries, `len(m)`. -/
def len (m : GoMap β) : Nat :=
  m.entries.length

/-- The lookup `v, ok := m[k]`: `some v` when `ok`, `none` otherwise. -/
def get? (m : GoMap β) (k : String) : Option β :=
  m.entries.lookup k

end GoMap

/-! ## The provider schema response -/

/-- The severity of a diagnostic (`tfdiags.Severity`). -/
inductive Severity where
  | Error
  | Warning
deriving DecidableEq, Repr

/-- One diagnostic of a response. -/
structure Diagnostic where
  severity : Severity
  summary : String
  detail : String
deriving DecidableEq, Repr

/-- The diagnostics of a response (`tfdiags.Diagnostics`). -/
abbrev Diagnostics := List Diagnostic

/-- The method `diags.HasErrors()`: some diagnostic has severity `Error`. -/
def HasErrors (diags : Diagnostics) : Bool :=
  diags.any (fun d => d.severity == Severity.Error)

/-- The struct `providers.Schema`; `CB` is the type of `*configschema.Block`. -/
structure Schema (CB : Type) where
  Version : Int
  Block : CB
deriving DecidableEq, Repr

/-- The struct `providers.GetProviderSchemaResponse`. -/
structure GetProviderSchemaResponse (CB : Type) where
  Provider : Schema CB
  ResourceTypes : GoMap (Schema CB)
  DataSources : GoMap (Schema CB)
  Diagnostics : Diagnostics

/-- The functions this file calls that live elsewhere: `NewBlock` of this
package (it takes a `*configschema.Block` and returns a `*Block`, `none`
being the nil pointer) and the text of `diags.Err()`. -/
structure Deps (CB B : Type) where
  NewBlock : CB → Option B
  diagErrText : Diagnostics → String

/-- The interface `providers.Interface` as far as this file uses it. `P` is the value the
client holds, `σ` is the state of whatever is behind it (the plugin process);
a call may change that state. -/
structure Interface (P σ CB : Type) where
  GetProviderSchema : P → σ → GetProviderSchemaResponse CB × σ
  Close : P → σ → σ

/-! ## The client and its query methods -/

/-- The struct `GRPCClient`. -/
structure GRPCClient (P : Type) where
  provider : P
deriving DecidableEq, Repr

/-- The state the methods run in: the client struct behind the receiver
pointer, and the state behind the provider. -/
structure Sys (P σ : Type) where
  client : GRPCClient P
  remote : σ

section Methods

variable {P σ CB B : Type}

/-- The method `(c *GRPCClient) getSchema()`. -/
def getSchema (D : Deps CB B) (I : Interface P σ CB) (s : Sys P σ) :
    (GetProviderSchemaResponse CB × Option GoError) × Sys P σ :=
  let r := I.GetProviderSchema s.client.provider s.remote
  let res := r.1
  let s1 : Sys P σ := { s with remote := r.2 }
  if HasErrors res.Diagnostics then
    ((res, some (Errorf "Failed to get schema from provider: "
      (D.diagErrText res.Diagnostics))), s1)
  else
    ((res, none), s1)

/-- The method `(c *GRPCClient) GetProviderSchema()`. -/
def GetProviderSchema (D : Deps CB B) (I : Interface P σ CB) (s : Sys P σ) :
    (Option B × Option GoError) × Sys P σ :=
  match getSchema D I s with
  | ((_, some err), s1) => ((none, some err), s1)
  | ((res, none), s1) => ((D.NewBlock res.Provider.Block, none), s1)

/-- The method `(c *GRPCClient) GetResourceTypeSchema(resourceType)`. -/
def GetResourceTypeSchema (D : Deps CB B) (I : Interface P σ CB) (resourceType : String)
    (s : Sys P σ) : (Option B × Option GoError) × Sys P σ :=
  match getSchema D I s with
  | ((_, some err), s1) => ((none, some err), s1)
  | ((res, none), s1) =>
    match res.ResourceTypes.get? resourceType with
    | none => ((none, some (Errorf "Failed to find resource type: " resourceType)), s1)
    | some schema => ((D.NewBlock schema.Block, none), s1)

/-- The method `(c *GRPCClient) GetDataSourceSchema(dataSource)`. -/
def GetDataSourceSchema (D : Deps CB B) (I : Interface P σ CB) (dataSource : String)
    (s : Sys P σ) : (Option B × Option GoError) × Sys P σ :=
  match getSchema D I s with
  | ((_, some err), s1) => ((none, some err), s1)
  | ((res, none), s1) =>
    match res.DataSources.get? dataSource with
    | none => ((none, some (Errorf "Failed to find data source: " dataSource)), s1)
    | some schema => ((D.NewBlock schema.Block, none), s1)

/-- The method `(c *GRPCClient) ResourceTypes()`. The slice is `none` when nil. -/
def ResourceTypes (D : Deps CB B) (I : Interface P σ CB) (s : Sys P σ) :
    (Option (List String) × Option GoError) × Sys P σ :=
  match getSchema D I s with
  | ((_, some err), s1) => ((none, some err), s1)
  | ((res, none), s1) =>
    let keys := res.ResourceTypes.keys.foldl (fun keys k => keys ++ [k]) []
    ((some (sortStrings keys), none), s1)

/-- The method `(c *GRPCClient) DataSources()`. The slice is `none` when nil. -/
def DataSources (D : Deps CB B) (I : Interface P σ CB) (s : Sys P σ) :
    (Option (List String) × Option GoError) × Sys P σ :=
  match getSchema D I s with
  | ((_, some err), s1) => ((none, some err), s1)
  | ((res, none), s1) =>
    let keys := res.DataSources.keys.foldl (fun keys k => keys ++ [k]) []
    ((some (sortStrings keys), none), s1)

/-- The method `(c *GRPCClient) Close()`. -/
def Close (I : Interface P σ CB) (s : Sys P σ) : Sys P σ :=
  { s with remote := I.Close s.client.provider s.remote }

end Methods

/-! ## A caller issuing queries -/

/-- The five query methods, with their arguments. -/
inductive Query where
  | providerSchema
  | resourceTypeSchema (resourceType : String)
  | dataSourceSchema (dataSource : String)
  | resourceTypes
  | dataSources
deriving DecidableEq, Repr

/-- What a query method returns: a block and an error, or a slice of names
and an error. -/
inductive QueryResult (B : Type) where
  | block (b : Option B) (err : Option GoError)
  | names (keys : Option (List String)) (err : Option GoError)
deriving DecidableEq, Repr

section Caller

variable {P σ CB B : Type}

/-- One method call on the client. -/
def runQuery (D : Deps CB B) (I : Interface P σ CB) (q : Query) (s : Sys P σ) :
    QueryResult B × Sys P σ :=
  match q with
  | Query.providerSchema =>
    let r := GetProviderSchema D I s
    (QueryResult.block r.1.1 r.1.2, r.2)
  | Query.resourceTypeSchema name =>
    let r := GetResourceTypeSchema D I name s
    (QueryResult.block r.1.1 r.1.2, r.2)
  | Query.dataSourceSchema name =>
    let r := GetDataSourceSchema D I name s
    (QueryResult.block r.1.1 r.1.2, r.2)
  | Query.resourceTypes =>
    let r := ResourceTypes D I s
    (QueryResult.names r.1.1 r.1.2, r.2)
  | Query.dataSources =>
    let r := DataSources D I s
    (QueryResult.names r.1.1 r.1.2, r.2)

/-- Method calls made one after another on the same client. -/
def runQueries (D : Deps CB B) (I : Interface P σ CB) :
    List Query → Sys P σ → List (QueryResult B) × Sys P σ
  | [], s => ([], s)
  | q :: qs, s =>
    let r := runQuery D I q s
    let rest := runQueries D I qs r.2
    (r.1 :: rest.1, rest.2)

/-- The state behind a provider together with two counters: how often its
`GetProviderSchema` and how often its `Close` has been called. -/
structure Counted (σ : Type) where
  inner : σ
  schemaCalls : Nat
  closeCalls : Nat

/-- The provider `I` with every call counted. -/
def counted (I : Interface P σ CB) : Interface P (Counted σ) CB where
  GetProviderSchema := fun p c =>
    let r := I.GetProviderSchema p c.inner
    (r.1, { c with inner := r.2, schemaCalls := c.schemaCalls + 1 })
  Close := fun p c =>
    { c with inner := I.Close p c.inner, closeCalls := c.closeCalls + 1 }

end Caller

/-! ## The constructor `NewGRPCClient` -/

/-- A logger; only passed along. -/
structure Logger where
  name : String
deriving DecidableEq, Repr

/-- The options of a client (the `Option` type of the package): the directory to
search for plugins and a logger. -/
structure Options where
  RootDir : String
  Logger : Logger
deriving DecidableEq, Repr

/-- The struct `discovery.PluginMeta`. -/
structure PluginMeta where
  Name : String
  Version : String
  Path : String
deriving DecidableEq, Repr

/-- The struct `plugin.HandshakeConfig`. -/
structure HandshakeConfig where
  ProtocolVersion : Nat
  MagicCookieKey : String
  MagicCookieValue : String
deriving DecidableEq, Repr

/-- The type `plugin.Protocol`. -/
inductive Protocol where
  | ProtocolNetRPC
  | ProtocolGRPC
deriving DecidableEq, Repr

/-- The plugins that a table of versioned plugins can hold: the gRPC provider
plugin of protocol 5, the gRPC provider plugin of protocol 6, and the gRPC
provisioner plugin. -/
inductive PluginKind where
  | GRPCProviderPlugin
  | GRPCProviderPlugin6
  | GRPCProvisionerPlugin
deriving DecidableEq, Repr

/-- The struct `plugin.ClientConfig`, the fields this file sets. `Cmd` is the path given
to `exec.Command`; `VersionedPlugins` lists, per protocol version, the
plugins that version offers, by name. -/
structure ClientConfig where
  HandshakeConfig : HandshakeConfig
  Logger : Logger
  AllowedProtocols : List Protocol
  Managed : Bool
  Cmd : String
  AutoMTLS : Bool
  VersionedPlugins : List (Int × List (String × PluginKind))
deriving DecidableEq, Repr

/-- A `*plugin.Client`, made from a configuration. -/
structure PluginClient where
  config : ClientConfig
deriving DecidableEq, Repr

/-- The struct `tfplugin.GRPCProvider` (protocol 5): the field this file assigns, and an
identifier for the rest of the struct. -/
structure GRPCProvider where
  PluginClient : Option PluginClient
  conn : Nat
deriving DecidableEq, Repr

/-- The struct `tfplugin6.GRPCProvider` (protocol 6). -/
structure GRPCProvider6 where
  PluginClient : Option PluginClient
  conn : Nat
deriving DecidableEq, Repr

/-- The value `Dispense` hands out, an `interface{}`: by dynamic type a
protocol 5 provider, a protocol 6 provider, or something else. -/
inductive Raw where
  | provider5 (p : GRPCProvider)
  | provider6 (p : GRPCProvider6)
  | other (typeName : String)
deriving DecidableEq, Repr

/-- The `providers.Interface` values the constructor stores in a client. -/
inductive ProviderValue where
  | v5 (p : GRPCProvider)
  | v6 (p : GRPCProvider6)
deriving DecidableEq, Repr

/-- What is outside the constructor: two constants of the `tfplugin` package,
`findPlugin` of this package (kind, name, root directory), and the answers of
the plugin library. `start cfg` is the result of `client.Client()`: an error,
or the protocol version that `client.NegotiatedVersion()` reports afterwards.
`dispense cfg name` is the result of `rpcClient.Dispense(name)`. -/
structure Env where
  Handshake : HandshakeConfig
  VersionedPlugins : List (Int × List (String × PluginKind))
  findPlugin : String → String → String → Except GoError PluginMeta
  start : ClientConfig → Except GoError Int
  dispense : ClientConfig → String → Except GoError Raw

/-- The constant `tfplugin.ProviderPluginName`. -/
def ProviderPluginName : String := "provider"

/-- A call into the plugin library. -/
inductive PluginCall where
  | NewClient (cmd : String)
  | Client (cmd : String)
  | Dispense (name : String)
  | NegotiatedVersion
  | Kill (cmd : String)
deriving DecidableEq, Repr

/-- The machine the constructor runs on: the plugin subprocesses that are
running (by command), and the calls made into the plugin library so far. -/
structure Host where
  running : List String
  calls : List PluginCall
deriving DecidableEq, Repr

/-- The result of a function that may panic. -/
inductive Outcome (α : Type) where
  | ret (a : α)
  | panic (msg : String)
deriving DecidableEq, Repr

/-- The function `newGRPCClientConfig(pluginMeta, options)`. -/
def newGRPCClientConfig (E : Env) (pluginMeta : PluginMeta) (options : Options) : ClientConfig where
  HandshakeConfig := E.Handshake
  Logger := options.Logger
  AllowedProtocols := [Protocol.ProtocolGRPC]
  Managed := true
  Cmd := pluginMeta.Path
  AutoMTLS := true
  VersionedPlugins := E.VersionedPlugins

/-- The call `plugin.NewClient(config)`: makes the client value; nothing is started. -/
def pluginNewClient (config : ClientConfig) (h : Host) : PluginClient × Host :=
  (⟨config⟩, { h with calls := h.calls ++ [PluginCall.NewClient config.Cmd] })

/-- The call `client.Client()`: starts the subprocess and performs the handshake. When
it succeeds the subprocess is running; when it fails the library has left no
subprocess behind. -/
def pluginClientClient (E : Env) (client : PluginClient) (h : Host) : Except GoError Int × Host :=
  let h1 : Host := { h with calls := h.calls ++ [PluginCall.Client client.config.Cmd] }
  match E.start client.config with
  | Except.error err => (Except.error err, h1)
  | Except.ok version => (Except.ok version, { h1 with running := client.config.Cmd :: h1.running })

/-- The call `rpcClient.Dispense(name)`. -/
def pluginDispense (E : Env) (client : PluginClient) (name : String) (h : Host) :
    Except GoError Raw × Host :=
  (E.dispense client.config name, { h with calls := h.calls ++ [PluginCall.Dispense name] })

/-- The call `client.NegotiatedVersion()`, after a successful `client.Client()` that
negotiated `version`. -/
def pluginNegotiatedVersion (version : Int) (h : Host) : Int × Host :=
  (version, { h with calls := h.calls ++ [PluginCall.NegotiatedVersion] })

/-- The function `NewGRPCClient(providerName, options)`. The returned `Client` is `none`
when nil. A type assertion on a value of another dynamic type panics. -/
def NewGRPCClient (E : Env) (providerName : String) (options : Options) (h : Host) :
    Outcome (Option (GRPCClient ProviderValue) × Option GoError) × Host :=
  match E.findPlugin "provider" providerName options.RootDir with
  | Except.error err => (Outcome.ret (none, some err), h)
  | Except.ok pluginMeta =>
    let config := newGRPCClientConfig E pluginMeta options
    let (client, h1) := pluginNewClient config h
    match pluginClientClient E client h1 with
    | (Except.error err, h2) =>
      (Outcome.ret (none, some (Errorf "Failed to initialize GRPC plugin: " err.msg)), h2)
    | (Except.ok version, h2) =>
      match pluginDispense E client ProviderPluginName h2 with
      | (Except.error err, h3) =>
        (Outcome.ret (none, some (Errorf "Failed to dispense GRPC plugin: " err.msg)), h3)
      | (Except.ok raw, h3) =>
        let (protocolVersion, h4) := pluginNegotiatedVersion version h3
        if protocolVersion = 5 then
          match raw with
          | Raw.provider5 provider =>
            (Outcome.ret (some ⟨ProviderValue.v5 { provider with PluginClient := some client }⟩,
              none), h4)
          | _ => (Outcome.panic "interface conversion: not *plugin.GRPCProvider", h4)
        else if protocolVersion = 6 then
          match raw with
          | Raw.provider6 provider =>
            (Outcome.ret (some ⟨ProviderValue.v6 { provider with PluginClient := some client }⟩,
              none), h4)
          | _ => (Outcome.panic "interface conversion: not *plugin6.GRPCProvider", h4)
        else
          (Outcome.ret (none, some ⟨"unknown protocol version: " ++ toString protocolVersion⟩), h4)

/-! ## The plugin library around the constructor

The environment `Env` above leaves the answers of the plugin library open.
The definitions below say how the library arrives at them from the table of
versioned plugins in the configuration it is given. -/

/-- The table `tfplugin.VersionedPlugins`, which `newGRPCClientConfig` passes
to the plugin library: protocol 5 offers the protocol 5 provider (and a
provisioner), protocol 6 offers the protocol 6 provider. -/
def tfpluginVersionedPlugins : List (Int × List (String × PluginKind)) :=
  [(5, [("provider", PluginKind.GRPCProviderPlugin),
        ("provisioner", PluginKind.GRPCProvisionerPlugin)]),
   (6, [("provider", PluginKind.GRPCProviderPlugin6)])]

/-- The error of the plugin library when the plugin announces a protocol
version that the table does not list; `clientVersions` are the versions of
the table in the order they were visited. -/
def incompatibleVersion (serverVersion : Int) (clientVersions : List Int) : GoError :=
  ⟨"Incompatible API version with plugin. Plugin version: " ++ toString serverVersion
    ++ ", Client versions: [" ++ " ".intercalate (clientVersions.map toString) ++ "]"⟩

/-- The handshake inside `client.Client()`. The plugin process either fails
(`announced` is an error) or announces a protocol version; the library
accepts the version when the table of the configuration lists it and
rejects it otherwise. -/
def libraryStart (config : ClientConfig) (announced : Except GoError Int) : Except GoError Int :=
  match announced with
  | Except.error err => Except.error err
  | Except.ok serverVersion =>
    if serverVersion ∈ config.VersionedPlugins.map Prod.fst then
      Except.ok serverVersion
    else
      Except.error (incompatibleVersion serverVersion (config.VersionedPlugins.map Prod.fst))

/-- The value the gRPC client of a plugin hands out on the connection `conn`:
a provider whose `PluginClient` is not set yet, or a provisioner. -/
def grpcClientOf (kind : PluginKind) (conn : Nat) : Raw :=
  match kind with
  | PluginKind.GRPCProviderPlugin => Raw.provider5 ⟨none, conn⟩
  | PluginKind.GRPCProviderPlugin6 => Raw.provider6 ⟨none, conn⟩
  | PluginKind.GRPCProvisionerPlugin => Raw.other "*plugin.GRPCProvisioner"

/-- The call `rpcClient.Dispense(name)` after a handshake that negotiated
`version`: a lookup of `name` among the plugins the table offers for that
version. -/
def libraryDispense (config : ClientConfig) (version : Int) (conn : Nat) (name : String) :
    Except GoError Raw :=
  match config.VersionedPlugins.lookup version with
  | none => Except.error ⟨"unknown plugin type: " ++ name⟩
  | some plugins =>
    match plugins.lookup name with
    | none => Except.error ⟨"unknown plugin type: " ++ name⟩
    | some kind => Except.ok (grpcClientOf kind conn)

/-- What the plugin library and the constructor are given from outside: the
handshake constant, `findPlugin` of this package, what the plugin process
started from a configuration does in the handshake (it fails, or it
announces a protocol version), and the connection to it. -/
structure World where
  Handshake : HandshakeConfig
  findPlugin : String → String → String → Except GoError PluginMeta
  announce : ClientConfig → Except GoError Int
  conn : ClientConfig → Nat

/-- The environment of the constructor in the world `W`: the plugin library
working from the table `tfplugin.VersionedPlugins`. -/
def libraryEnv (W : World) : Env where
  Handshake := W.Handshake
  VersionedPlugins := tfpluginVersionedPlugins
  findPlugin := W.findPlugin
  start := fun config => libraryStart config (W.announce config)
  dispense := fun config name =>
    match libraryStart config (W.announce config) with
    | Except.error err => Except.error err
    | Except.ok version => libraryDispense config version (W.conn config) name

/-! ## A provider that keeps its schema -/

/-- The state behind a gRPC provider of the plugin library: the schema
response it has kept (`p.schemas`, at first the zero value) and the state of the
plugin process it talks to. -/
structure Kept (σ CB : Type) where
  schemas : GetProviderSchemaResponse CB
  process : σ

/-- The method `GetProviderSchema` of a gRPC provider of the plugin library,
over the remote call `rpc`. When the kept response has a provider block it is
returned and no remote call is made; otherwise the remote call is made, and
its response is kept when it has a provider block. `isNil` tells whether a
block pointer is nil. -/
def keepingProvider {P σ CB : Type} (isNil : CB → Bool) (rpc : Interface P σ CB) :
    Interface P (Kept σ CB) CB where
  GetProviderSchema := fun p k =>
    if isNil k.schemas.Provider.Block then
      let r := rpc.GetProviderSchema p k.process
      if isNil r.1.Provider.Block then
        (r.1, { k with process := r.2 })
      else
        (r.1, { schemas := r.1, process := r.2 })
    else
      (k.schemas, k)
  Close := fun p k => { k with process := rpc.Close p k.process }

/-! ## Example data -/

/-- Example dependencies: blocks are strings, `NewBlock` tags its argument,
and the error text of diagnostics joins their summaries. -/
def exampleDeps : Deps String String where
  NewBlock := fun b => some ("Block(" ++ b ++ ")")
  diagErrText := fun diags => String.intercalate "; " (diags.map (fun d => d.summary))

/-- An example response without errors: one warning, resource types
`b`, `a`, `c` (visited in this order) and data sources `z`, `a`. -/
def exampleResponse : GetProviderSchemaResponse String where
  Provider := ⟨0, "provider"⟩
  ResourceTypes := ⟨[("b", ⟨0, "rb"⟩), ("a", ⟨1, "ra"⟩), ("c", ⟨0, "rc"⟩)], by decide⟩
  DataSources := ⟨[("z", ⟨0, "dz"⟩), ("a", ⟨0, "da"⟩)], by decide⟩
  Diagnostics := [⟨Severity.Warning, "deprecated attribute", ""⟩]

/-- An example response whose diagnostics hold an error. -/
def exampleFailure : GetProviderSchemaResponse String where
  Provider := ⟨0, "provider"⟩
  ResourceTypes := ⟨[("b", ⟨0, "rb"⟩)], by decide⟩
  DataSources := ⟨[("z", ⟨0, "dz"⟩)], by decide⟩
  Diagnostics := [⟨Severity.Warning, "slow", ""⟩, ⟨Severity.Error, "boom", "no schema"⟩]

/-- An example response with empty mappings. -/
def exampleEmpty : GetProviderSchemaResponse String where
  Provider := ⟨0, "provider"⟩
  ResourceTypes := ⟨[], by decide⟩
  DataSources := ⟨[], by decide⟩
  Diagnostics := []

/-- An example provider: its state is the list of responses it is still going
to give; each call gives the first of them and drops it (the last one stays). -/
def exampleProvider : Interface Unit (List (GetProviderSchemaResponse String)) String where
  GetProviderSchema := fun _ rs =>
    match rs with
    | [] => (exampleEmpty, [])
    | [r] => (r, [r])
    | r :: rest => (r, rest)
  Close := fun _ _ => []

/-- A client of the example provider, which will answer with `rs`. -/
def exampleSys (rs : List (GetProviderSchemaResponse String)) :
    Sys Unit (List (GetProviderSchemaResponse String)) :=
  ⟨⟨()⟩, rs⟩

/-- An example environment: the provider `aws` is found under the root
directory and no other; the handshake negotiates `version`; `Dispense`
answers `raw`. -/
def exampleEnv (version : Int) (raw : Except GoError Raw) : Env where
  Handshake := ⟨4, "TF_PLUGIN_MAGIC_COOKIE", "cookie"⟩
  VersionedPlugins := tfpluginVersionedPlugins
  findPlugin := fun kind name rootDir =>
    if kind = "provider" ∧ name = "aws" then
      Except.ok ⟨"aws", "3.0.0", rootDir ++ "/terraform-provider-aws"⟩
    else
      Except.error ⟨"Failed to find plugin: " ++ name⟩
  start := fun _ => Except.ok version
  dispense := fun _ _ => raw

/-- An example world: the provider `aws` is found under the root directory
and no other; its process answers the handshake with `announced`. -/
def exampleWorld (announced : Except GoError Int) : World where
  Handshake := ⟨4, "TF_PLUGIN_MAGIC_COOKIE", "cookie"⟩
  findPlugin := fun kind name rootDir =>
    if kind = "provider" ∧ name = "aws" then
      Except.ok ⟨"aws", "3.0.0", rootDir ++ "/terraform-provider-aws"⟩
    else
      Except.error ⟨"Failed to find plugin: " ++ name⟩
  announce := fun _ => announced
  conn := fun _ => 3

/-- The zero value of a schema response whose blocks are strings; the empty
string stands for the nil block. -/
def zeroResponse : GetProviderSchemaResponse String where
  Provider := ⟨0, ""⟩
  ResourceTypes := ⟨[], by decide⟩
  DataSources := ⟨[], by decide⟩
  Diagnostics := []

/-- A client of a schema-keeping provider over the counted example provider:
nothing is kept yet, no call has been counted, and the plugin process would
answer a first remote call with the example response and a second one with
the response that has empty mappings. -/
def exampleKeptSys :
    Sys Unit (Kept (Counted (List (GetProviderSchemaResponse String))) String) :=
  ⟨⟨()⟩, ⟨zeroResponse, ⟨[exampleResponse, exampleEmpty], 0, 0⟩⟩⟩

/-- A schema-keeping provider over the counted example provider. -/
def exampleKeeping :
    Interface Unit (Kept (Counted (List (GetProviderSchemaResponse String))) String) String :=
  keepingProvider (fun b => b == "") (counted exampleProvider)

/-- Example options. -/
def exampleOptions : Options :=
  ⟨"/plugins", ⟨"log"⟩⟩

/-- An example host: one other plugin is running, no call has been made. -/
def exampleHost : Host :=
  ⟨["/plugins/terraform-provider-null"], []⟩

/-! ## Facts about the string order and the sort -/

theorem bytesLess_iff_lex (a b : List Nat) :
    bytesLess a b = true ↔ List.Lex (fun x y : Nat => x < y) a b := by
  induction a generalizing b with
  | nil =>
    cases b with
    | nil => simp [bytesLess, List.Lex.not_nil_right]
    | cons y ys => simp [bytesLess, List.Lex.nil]
  | cons x xs ih =>
    cases b with
    | nil => simp [bytesLess, List.Lex.not_nil_right]
    | cons y ys =>
      unfold bytesLess
      by_cases hxy : x < y
      · simp [hxy, List.Lex.rel hxy]
      · by_cases hyx : y < x
        · have hne : ¬ List.Lex (fun x y : Nat => x < y) (x :: xs) (y :: ys) := by
            intro h
            cases h with
            | cons h => exact absurd hyx (lt_irrefl _)
            | rel h => exact hxy h
          simp [hxy, hyx, hne]
        · have hEq : x = y := by omega
          subst hEq
          simp [ih, List.Lex.cons_iff]

theorem stringLess_asymm {a b : String} (h : stringLess a b = true) : stringLess b a = false := by
  unfold stringLess at *
  rw [bytesLess_iff_lex] at h
  cases hb : bytesLess (bytes b) (bytes a) with
  | false => rfl
  | true =>
    rw [bytesLess_iff_lex] at hb
    exact absurd hb (asymm h)

theorem stringLE_refl (a : String) : stringLE a a := by
  unfold stringLE
  cases h : stringLess a a with
  | false => rfl
  | true => have := stringLess_asymm h; rw [h] at this; exact this

theorem stringLE_total (a b : String) : stringLE a b ∨ stringLE b a := by
  unfold stringLE
  cases h : stringLess b a with
  | false => exact Or.inl rfl
  | true => exact Or.inr (stringLess_asymm h)

theorem stringLE_trans {a b c : String} (hab : stringLE a b) (hbc : stringLE b c) :
    stringLE a c := by
  unfold stringLE stringLess at *
  cases hca : bytesLess (bytes c) (bytes a) with
  | false => rfl
  | true =>
    rw [bytesLess_iff_lex] at hca
    rcases IsOrderConnected.conn (bytes c) (bytes b) (bytes a) hca with h | h
    · rw [← bytesLess_iff_lex] at h
      rw [h] at hbc
      exact absurd hbc (by simp)
    · rw [← bytesLess_iff_lex] at h
      rw [h] at hab
      exact absurd hab (by simp)

theorem insertString_perm (x : String) (l : List String) :
    (insertString x l).Perm (x :: l) := by
  induction l with
  | nil => exact List.Perm.refl _
  | cons y ys ih =>
    unfold insertString
    split
    · exact List.Perm.refl _
    · exact (List.Perm.cons y ih).trans (List.Perm.swap x y ys)

theorem insertString_sorted (x : String) (l : List String) (h : l.Pairwise stringLE) :
    (insertString x l).Pairwise stringLE := by
  induction l with
  | nil => simp [insertString]
  | cons y ys ih =>
    rw [List.pairwise_cons] at h
    unfold insertString
    split
    · rename_i hlt
      have hxy : stringLE x y := stringLess_asymm hlt
      refine List.pairwise_cons.2 ⟨?_, List.pairwise_cons.2 h⟩
      intro z hz
      rcases List.mem_cons.1 hz with rfl | hz
      · exact hxy
      · exact stringLE_trans hxy (h.1 z hz)
    · rename_i hlt
      have hyx : stringLE y x := by
        unfold stringLE
        simpa using hlt
      refine List.pairwise_cons.2 ⟨?_, ih h.2⟩
      intro z hz
      rcases List.mem_cons.1 ((insertString_perm x ys).mem_iff.1 hz) with rfl | hz
      · exact hyx
      · exact h.1 z hz

theorem foldl_insertString_perm (xs acc : List String) :
    (xs.foldl (fun acc x => insertString x acc) acc).Perm (xs ++ acc) := by
  induction xs generalizing acc with
  | nil => exact List.Perm.refl _
  | cons x xs ih =>
    simp only [List.foldl_cons, List.cons_append]
    exact (ih _).trans ((List.Perm.append_left xs (insertString_perm x acc)).trans
      List.perm_middle)

theorem foldl_insertString_sorted (xs acc : List String) (h : acc.Pairwise stringLE) :
    (xs.foldl (fun acc x => insertString x acc) acc).Pairwise stringLE := by
  induction xs generalizing acc with
  | nil => exact h
  | cons x xs ih => exact ih _ (insertString_sorted x acc h)

theorem sortStrings_perm (xs : List String) : (sortStrings xs).Perm xs := by
  have := foldl_insertString_perm xs []
  simpa [sortStrings] using this

theorem sortStrings_sorted (xs : List String) : (sortStrings xs).Pairwise stringLE :=
  foldl_insertString_sorted xs [] List.Pairwise.nil

theorem utf8Bytes_ne_nil (c : Char) : utf8Bytes c ≠ [] := by
  unfold utf8Bytes
  simp only []
  split_ifs <;> simp

theorem utf8Bytes_append_inj (c d : Char) (r r2 : List Nat)
    (h : utf8Bytes c ++ r = utf8Bytes d ++ r2) : c = d ∧ r = r2 := by
  have key : c.toNat = d.toNat ∧ r = r2 := by
    unfold utf8Bytes at h
    simp only [] at h
    split_ifs at h <;> simp at h <;>
      first
        | exact h
        | (exfalso; omega)
        | exact ⟨by omega, h.2.2⟩
        | exact ⟨by omega, h.2.2.2⟩
        | exact ⟨by omega, h.2.2.2.2⟩
  refine ⟨?_, key.2⟩
  apply Char.ext
  apply UInt32.ext
  exact key.1

theorem flatMap_utf8Bytes_inj (l l2 : List Char)
    (h : l.flatMap utf8Bytes = l2.flatMap utf8Bytes) : l = l2 := by
  induction l generalizing l2 with
  | nil =>
    cases l2 with
    | nil => rfl
    | cons d ds =>
      simp only [List.flatMap_nil, List.flatMap_cons] at h
      have := utf8Bytes_ne_nil d
      simp_all
  | cons c cs ih =>
    cases l2 with
    | nil =>
      simp only [List.flatMap_nil, List.flatMap_cons] at h
      have := utf8Bytes_ne_nil c
      simp_all
    | cons d ds =>
      simp only [List.flatMap_cons] at h
      obtain ⟨h1, h2⟩ := utf8Bytes_append_inj c d _ _ h
      rw [h1, ih ds h2]

theorem bytes_injective {a b : String} (h : bytes a = bytes b) : a = b :=
  String.ext (flatMap_utf8Bytes_inj a.data b.data h)

theorem stringLE_antisymm {a b : String} (hab : stringLE a b) (hba : stringLE b a) : a = b := by
  unfold stringLE stringLess at *
  apply bytes_injective
  rcases trichotomous_of (List.Lex (fun x y : Nat => x < y)) (bytes a) (bytes b) with h | h | h
  · rw [← bytesLess_iff_lex] at h
    rw [h] at hba
    exact absurd hba (by simp)
  · exact h
  · rw [← bytesLess_iff_lex] at h
    rw [h] at hab
    exact absurd hab (by simp)

theorem sortStrings_unique (xs l : List String) (hp : l.Perm xs) (hs : l.Pairwise stringLE) :
    l = sortStrings xs := by
  haveI : IsAntisymm String stringLE := ⟨fun _ _ h1 h2 => stringLE_antisymm h1 h2⟩
  exact List.eq_of_perm_of_sorted (hp.trans (sortStrings_perm xs).symm) hs
    (sortStrings_sorted xs)

theorem sortStrings_congr {xs ys : List String} (hp : xs.Perm ys) :
    sortStrings xs = sortStrings ys :=
  sortStrings_unique ys (sortStrings xs) ((sortStrings_perm xs).trans hp) (sortStrings_sorted xs)

theorem foldl_append_singleton (xs acc : List String) :
    xs.foldl (fun keys k => keys ++ [k]) acc = acc ++ xs := by
  induction xs generalizing acc with
  | nil => simp
  | cons x xs ih => simp [ih]

/-! ## Facts about maps and `getSchema` -/

theorem lookup_eq_none_of_not_mem {β : Type} (k : String) (l : List (String × β))
    (h : k ∉ l.map Prod.fst) : l.lookup k = none := by
  induction l with
  | nil => rfl
  | cons e es ih =>
    obtain ⟨k1, v1⟩ := e
    simp only [List.map_cons, List.mem_cons, not_or] at h
    have hne : (k == k1) = false := by simpa using h.1
    simp [List.lookup, hne, ih h.2]

theorem lookup_eq_some_of_mem {β : Type} (k : String) (v : β) (l : List (String × β))
    (hn : (l.map Prod.fst).Nodup) (h : (k, v) ∈ l) : l.lookup k = some v := by
  induction l with
  | nil => simp at h
  | cons e es ih =>
    obtain ⟨k1, v1⟩ := e
    simp only [List.map_cons, List.nodup_cons] at hn
    rcases List.mem_cons.1 h with heq | hmem
    · cases heq
      simp [List.lookup]
    · have hk : k ∈ es.map Prod.fst := List.mem_map.2 ⟨(k, v), hmem, rfl⟩
      have hne : (k == k1) = false := by
        have : k ≠ k1 := fun e => hn.1 (e ▸ hk)
        simpa using this
      simp [List.lookup, hne, ih hn.2 hmem]

theorem data_suffix_append (pre arg : String) : arg.data <:+ (pre ++ arg).data := by
  rw [String.data_append]
  exact List.suffix_append _ _

section MethodFacts

variable {P σ CB B : Type}

theorem getSchema_of_no_errors (D : Deps CB B) (I : Interface P σ CB) (s : Sys P σ)
    (h : HasErrors (I.GetProviderSchema s.client.provider s.remote).1.Diagnostics = false) :
    getSchema D I s = (((I.GetProviderSchema s.client.provider s.remote).1, none),
      { s with remote := (I.GetProviderSchema s.client.provider s.remote).2 }) := by
  simp [getSchema, h]

theorem getSchema_of_errors (D : Deps CB B) (I : Interface P σ CB) (s : Sys P σ)
    (h : HasErrors (I.GetProviderSchema s.client.provider s.remote).1.Diagnostics = true) :
    getSchema D I s = (((I.GetProviderSchema s.client.provider s.remote).1,
        some (Errorf "Failed to get schema from provider: "
          (D.diagErrText (I.GetProviderSchema s.client.provider s.remote).1.Diagnostics))),
      { s with remote := (I.GetProviderSchema s.client.provider s.remote).2 }) := by
  simp [getSchema, h]

theorem ResourceTypes_of_no_errors (D : Deps CB B) (I : Interface P σ CB) (s : Sys P σ)
    (h : HasErrors (I.GetProviderSchema s.client.provider s.remote).1.Diagnostics = false) :
    (ResourceTypes D I s).1 =
      (some (sortStrings (I.GetProviderSchema s.client.provider s.remote).1.ResourceTypes.keys),
        none) := by
  simp [ResourceTypes, getSchema_of_no_errors D I s h, foldl_append_singleton]

theorem DataSources_of_no_errors (D : Deps CB B) (I : Interface P σ CB) (s : Sys P σ)
    (h : HasErrors (I.GetProviderSchema s.client.provider s.remote).1.Diagnostics = false) :
    (DataSources D I s).1 =
      (some (sortStrings (I.GetProviderSchema s.client.provider s.remote).1.DataSources.keys),
        none) := by
  simp [DataSources, getSchema_of_no_errors D I s h, foldl_append_singleton]

theorem runQuery_state (D : Deps CB B) (I : Interface P σ CB) (q : Query) (s : Sys P σ) :
    (runQuery D I q s).2
      = { s with remote := (I.GetProviderSchema s.client.provider s.remote).2 } := by
  rcases Bool.eq_false_or_eq_true
    (HasErrors (I.GetProviderSchema s.client.provider s.remote).1.Diagnostics) with ht | hf
  · cases q <;>
      simp [runQuery, GetProviderSchema, GetResourceTypeSchema, GetDataSourceSchema,
        ResourceTypes, DataSources, getSchema_of_errors D I s ht]
  · cases q with
    | providerSchema => simp [runQuery, GetProviderSchema, getSchema_of_no_errors D I s hf]
    | resourceTypeSchema name =>
      simp only [runQuery, GetResourceTypeSchema, getSchema_of_no_errors D I s hf]
      split <;> rfl
    | dataSourceSchema name =>
      simp only [runQuery, GetDataSourceSchema, getSchema_of_no_errors D I s hf]
      split <;> rfl
    | resourceTypes => simp [runQuery, ResourceTypes, getSchema_of_no_errors D I s hf]
    | dataSources => simp [runQuery, DataSources, getSchema_of_no_errors D I s hf]

theorem runQuery_result_congr {Q τ : Type} (D : Deps CB B) (I : Interface P σ CB)
    (J : Interface Q τ CB) (q : Query) (s : Sys P σ) (t : Sys Q τ)
    (h : (I.GetProviderSchema s.client.provider s.remote).1
      = (J.GetProviderSchema t.client.provider t.remote).1) :
    (runQuery D J q t).1 = (runQuery D I q s).1 := by
  rcases Bool.eq_false_or_eq_true
    (HasErrors (I.GetProviderSchema s.client.provider s.remote).1.Diagnostics) with ht | hf
  · have htJ : HasErrors (J.GetProviderSchema t.client.provider t.remote).1.Diagnostics
        = true := by rw [← h]; exact ht
    cases q <;>
      simp [runQuery, GetProviderSchema, GetResourceTypeSchema, GetDataSourceSchema,
        ResourceTypes, DataSources, getSchema_of_errors D I s ht,
        getSchema_of_errors D J t htJ, h]
  · have hfJ : HasErrors (J.GetProviderSchema t.client.provider t.remote).1.Diagnostics
        = false := by rw [← h]; exact hf
    cases q with
    | providerSchema =>
      simp [runQuery, GetProviderSchema, getSchema_of_no_errors D I s hf,
        getSchema_of_no_errors D J t hfJ, h]
    | resourceTypeSchema name =>
      simp only [runQuery, GetResourceTypeSchema, getSchema_of_no_errors D I s hf,
        getSchema_of_no_errors D J t hfJ, h]
      split <;> rfl
    | dataSourceSchema name =>
      simp only [runQuery, GetDataSourceSchema, getSchema_of_no_errors D I s hf,
        getSchema_of_no_errors D J t hfJ, h]
      split <;> rfl
    | resourceTypes =>
      simp [runQuery, ResourceTypes, getSchema_of_no_errors D I s hf,
        getSchema_of_no_errors D J t hfJ, h]
    | dataSources =>
      simp [runQuery, DataSources, getSchema_of_no_errors D I s hf,
        getSchema_of_no_errors D J t hfJ, h]

theorem runQueries_counted (D : Deps CB B) (I : Interface P σ CB) (qs : List Query)
    (cl : GRPCClient P) (c : Counted σ) :
    (runQueries D (counted I) qs ⟨cl, c⟩).2.client = cl
      ∧ (runQueries D (counted I) qs ⟨cl, c⟩).2.remote.schemaCalls = c.schemaCalls + qs.length
      ∧ (runQueries D (counted I) qs ⟨cl, c⟩).2.remote.closeCalls = c.closeCalls := by
  induction qs generalizing c with
  | nil => exact ⟨rfl, rfl, rfl⟩
  | cons q qs ih =>
    simp only [runQueries, runQuery_state, List.length_cons]
    obtain ⟨h1, h2, h3⟩ := ih ((counted I).GetProviderSchema cl.provider c).2
    refine ⟨h1, ?_, ?_⟩
    · rw [h2]
      simp only [counted]
      omega
    · rw [h3]
      rfl

end MethodFacts

/-! ## The query methods -/

section Claims

variable {P σ CB B : Type}

/-- C1. When the response of the provider has no error diagnostics, whatever
its two mappings hold and in whatever order they are visited,
`ResourceTypes()` and `DataSources()` return a slice and a nil error, and the
slice is in ascending byte-wise lexicographic order: every element is `<=`
every later one, in particular its successor. The result does not depend on
the order of visit: a response whose mapping has the same keys visited in
another order gives the same slice. -/
theorem ResourceTypes_DataSources_ascending {Q τ : Type} (D : Deps CB B)
    (I : Interface P σ CB) (s : Sys P σ)
    (h : HasErrors (I.GetProviderSchema s.client.provider s.remote).1.Diagnostics = false) :
    ∃ rs ds, (ResourceTypes D I s).1 = (some rs, none) ∧ (DataSources D I s).1 = (some ds, none)
      ∧ rs.Pairwise stringLE ∧ rs.Chain' stringLE
      ∧ ds.Pairwise stringLE ∧ ds.Chain' stringLE
      ∧ (∀ (J : Interface Q τ CB) (t : Sys Q τ),
          HasErrors (J.GetProviderSchema t.client.provider t.remote).1.Diagnostics = false →
          ((J.GetProviderSchema t.client.provider t.remote).1.ResourceTypes.keys.Perm
              (I.GetProviderSchema s.client.provider s.remote).1.ResourceTypes.keys →
            (ResourceTypes D J t).1 = (some rs, none))
          ∧ ((J.GetProviderSchema t.client.provider t.remote).1.DataSources.keys.Perm
              (I.GetProviderSchema s.client.provider s.remote).1.DataSources.keys →
            (DataSources D J t).1 = (some ds, none))) := by
  refine ⟨_, _, ResourceTypes_of_no_errors D I s h, DataSources_of_no_errors D I s h,
    sortStrings_sorted _, (sortStrings_sorted _).chain', sortStrings_sorted _,
    (sortStrings_sorted _).chain', ?_⟩
  intro J t hJ
  refine ⟨fun hp => ?_, fun hp => ?_⟩
  · rw [ResourceTypes_of_no_errors D J t hJ, sortStrings_congr hp]
  · rw [DataSources_of_no_errors D J t hJ, sortStrings_congr hp]

/-- The statement of C1 at the example response, whose resource types are
visited in the order `b`, `a`, `c`; the result there is `a`, `b`, `c`. -/
theorem ResourceTypes_DataSources_ascending_witness :
    (ResourceTypes exampleDeps exampleProvider (exampleSys [exampleResponse])).1
        = (some ["a", "b", "c"], none)
      ∧ (DataSources exampleDeps exampleProvider (exampleSys [exampleResponse])).1
        = (some ["a", "z"], none)
      ∧ ∃ rs ds, (ResourceTypes exampleDeps exampleProvider (exampleSys [exampleResponse])).1
          = (some rs, none)
        ∧ (DataSources exampleDeps exampleProvider (exampleSys [exampleResponse])).1
          = (some ds, none)
        ∧ rs.Pairwise stringLE ∧ rs.Chain' stringLE
        ∧ ds.Pairwise stringLE ∧ ds.Chain' stringLE :=
  ⟨by decide, by decide,
    match ResourceTypes_DataSources_ascending (Q := Unit) (τ := Unit) exampleDeps
      exampleProvider (exampleSys [exampleResponse]) (by decide) with
    | ⟨rs, ds, h1, h2, h3, h4, h5, h6, _⟩ => ⟨rs, ds, h1, h2, h3, h4, h5, h6⟩⟩

/-- C2. When the response has no error diagnostics, `ResourceTypes()` returns
the keys of the resource-type mapping, each exactly once and nothing else:
the result is a rearrangement of the keys, has no repetition, has as many
elements as the mapping has entries, and holds a name exactly when the name
is a key of that mapping. `DataSources()` returns the keys of the data-source
mapping in the same way. An empty mapping gives the empty (non-nil) slice
and a nil error. -/
theorem ResourceTypes_DataSources_exact_keys (D : Deps CB B) (I : Interface P σ CB)
    (s : Sys P σ) (res : GetProviderSchemaResponse CB)
    (hres : (I.GetProviderSchema s.client.provider s.remote).1 = res)
    (h : HasErrors res.Diagnostics = false) :
    ∃ rs ds, (ResourceTypes D I s).1 = (some rs, none) ∧ (DataSources D I s).1 = (some ds, none)
      ∧ rs.Perm res.ResourceTypes.keys ∧ rs.Nodup ∧ rs.length = res.ResourceTypes.len
      ∧ (∀ k, k ∈ rs ↔ k ∈ res.ResourceTypes.keys)
      ∧ (∀ k, rs.count k = if k ∈ res.ResourceTypes.keys then 1 else 0)
      ∧ ds.Perm res.DataSources.keys ∧ ds.Nodup ∧ ds.length = res.DataSources.len
      ∧ (∀ k, k ∈ ds ↔ k ∈ res.DataSources.keys)
      ∧ (∀ k, ds.count k = if k ∈ res.DataSources.keys then 1 else 0)
      ∧ (res.ResourceTypes.len = 0 → rs = [])
      ∧ (res.DataSources.len = 0 → ds = []) := by
  subst hres
  have hr := sortStrings_perm (I.GetProviderSchema s.client.provider s.remote).1.ResourceTypes.keys
  have hd := sortStrings_perm (I.GetProviderSchema s.client.provider s.remote).1.DataSources.keys
  have hrn : (sortStrings
      (I.GetProviderSchema s.client.provider s.remote).1.ResourceTypes.keys).Nodup :=
    hr.nodup_iff.2 (I.GetProviderSchema s.client.provider s.remote).1.ResourceTypes.nodup
  have hdn : (sortStrings
      (I.GetProviderSchema s.client.provider s.remote).1.DataSources.keys).Nodup :=
    hd.nodup_iff.2 (I.GetProviderSchema s.client.provider s.remote).1.DataSources.nodup
  refine ⟨_, _, ResourceTypes_of_no_errors D I s h, DataSources_of_no_errors D I s h,
    hr, hrn, ?_, fun k => hr.mem_iff, ?_, hd, hdn, ?_, fun k => hd.mem_iff, ?_, ?_, ?_⟩
  · simpa [GoMap.len, GoMap.keys] using hr.length_eq
  · intro k
    simp only [List.count_eq_of_nodup hrn, hr.mem_iff]
  · simpa [GoMap.len, GoMap.keys] using hd.length_eq
  · intro k
    simp only [List.count_eq_of_nodup hdn, hd.mem_iff]
  · intro h0
    have : (sortStrings
        (I.GetProviderSchema s.client.provider s.remote).1.ResourceTypes.keys).length = 0 := by
      rw [hr.length_eq]
      simpa [GoMap.len, GoMap.keys] using h0
    exact List.length_eq_zero.1 this
  · intro h0
    have : (sortStrings
        (I.GetProviderSchema s.client.provider s.remote).1.DataSources.keys).length = 0 := by
      rw [hd.length_eq]
      simpa [GoMap.len, GoMap.keys] using h0
    exact List.length_eq_zero.1 this

/-- The statement of C2 at the example response with empty mappings, where
both methods return the empty slice and a nil error. -/
theorem ResourceTypes_DataSources_exact_keys_witness :
    (ResourceTypes exampleDeps exampleProvider (exampleSys [exampleEmpty])).1 = (some [], none)
      ∧ (DataSources exampleDeps exampleProvider (exampleSys [exampleEmpty])).1 = (some [], none)
      ∧ ∃ rs ds,
        (ResourceTypes exampleDeps exampleProvider (exampleSys [exampleEmpty])).1 = (some rs, none)
        ∧ (DataSources exampleDeps exampleProvider (exampleSys [exampleEmpty])).1 = (some ds, none)
        ∧ rs.Perm exampleEmpty.ResourceTypes.keys ∧ rs.Nodup
        ∧ rs.length = exampleEmpty.ResourceTypes.len
        ∧ (∀ k, k ∈ rs ↔ k ∈ exampleEmpty.ResourceTypes.keys)
        ∧ (∀ k, rs.count k = if k ∈ exampleEmpty.ResourceTypes.keys then 1 else 0)
        ∧ ds.Perm exampleEmpty.DataSources.keys ∧ ds.Nodup
        ∧ ds.length = exampleEmpty.DataSources.len
        ∧ (∀ k, k ∈ ds ↔ k ∈ exampleEmpty.DataSources.keys)
        ∧ (∀ k, ds.count k = if k ∈ exampleEmpty.DataSources.keys then 1 else 0)
        ∧ (exampleEmpty.ResourceTypes.len = 0 → rs = [])
        ∧ (exampleEmpty.DataSources.len = 0 → ds = []) :=
  ⟨by decide, by decide, ResourceTypes_DataSources_exact_keys exampleDeps exampleProvider
    (exampleSys [exampleEmpty]) exampleEmpty rfl (by decide)⟩

/-- C3. When the response has no error diagnostics: for a name that is not a
key of the resource-type mapping (it may be a key of the data-source
mapping), `GetResourceTypeSchema(name)` returns a nil block and the error
"Failed to find resource type: " followed by the name, so the text of the
error ends with the name; for a name that is not a key of the data-source
mapping, `GetDataSourceSchema(name)` returns a nil block and the error
"Failed to find data source: " followed by the name. Neither result is a
nil block with a nil error. -/
theorem lookup_of_absent_name_fails (D : Deps CB B) (I : Interface P σ CB) (s : Sys P σ)
    (res : GetProviderSchemaResponse CB) (resourceType dataSource : String)
    (hres : (I.GetProviderSchema s.client.provider s.remote).1 = res)
    (h : HasErrors res.Diagnostics = false)
    (hr : resourceType ∉ res.ResourceTypes.keys)
    (hd : dataSource ∉ res.DataSources.keys) :
    (∃ e, (GetResourceTypeSchema D I resourceType s).1 = (none, some e)
        ∧ e.msg = "Failed to find resource type: " ++ resourceType
        ∧ resourceType.data <:+ e.msg.data)
      ∧ (∃ e, (GetDataSourceSchema D I dataSource s).1 = (none, some e)
        ∧ e.msg = "Failed to find data source: " ++ dataSource
        ∧ dataSource.data <:+ e.msg.data)
      ∧ (GetResourceTypeSchema D I resourceType s).1 ≠ (none, none)
      ∧ (GetDataSourceSchema D I dataSource s).1 ≠ (none, none) := by
  subst hres
  have h1 : (GetResourceTypeSchema D I resourceType s).1
      = (none, some (Errorf "Failed to find resource type: " resourceType)) := by
    simp [GetResourceTypeSchema, getSchema_of_no_errors D I s h, GoMap.get?,
      lookup_eq_none_of_not_mem resourceType _ hr]
  have h2 : (GetDataSourceSchema D I dataSource s).1
      = (none, some (Errorf "Failed to find data source: " dataSource)) := by
    simp [GetDataSourceSchema, getSchema_of_no_errors D I s h, GoMap.get?,
      lookup_eq_none_of_not_mem dataSource _ hd]
  refine ⟨⟨_, h1, rfl, ?_⟩, ⟨_, h2, rfl, ?_⟩, ?_, ?_⟩
  · exact data_suffix_append _ _
  · exact data_suffix_append _ _
  · rw [h1]; simp
  · rw [h2]; simp

/-- The statement of C3 at the example response: `z` is a data source but not
a resource type, and `nonexistent` is not a data source. -/
theorem lookup_of_absent_name_fails_witness :
    "z" ∈ exampleResponse.DataSources.keys
      ∧ (GetResourceTypeSchema exampleDeps exampleProvider "z" (exampleSys [exampleResponse])).1
        = (none, some ⟨"Failed to find resource type: z"⟩)
      ∧ (∃ e, (GetResourceTypeSchema exampleDeps exampleProvider "z"
            (exampleSys [exampleResponse])).1 = (none, some e)
          ∧ e.msg = "Failed to find resource type: " ++ "z"
          ∧ "z".data <:+ e.msg.data)
        ∧ (∃ e, (GetDataSourceSchema exampleDeps exampleProvider "nonexistent"
            (exampleSys [exampleResponse])).1 = (none, some e)
          ∧ e.msg = "Failed to find data source: " ++ "nonexistent"
          ∧ "nonexistent".data <:+ e.msg.data)
        ∧ (GetResourceTypeSchema exampleDeps exampleProvider "z"
            (exampleSys [exampleResponse])).1 ≠ (none, none)
        ∧ (GetDataSourceSchema exampleDeps exampleProvider "nonexistent"
            (exampleSys [exampleResponse])).1 ≠ (none, none) :=
  ⟨by decide, by decide, lookup_of_absent_name_fails exampleDeps exampleProvider
    (exampleSys [exampleResponse]) exampleResponse "z" "nonexistent" rfl (by decide)
    (by decide) (by decide)⟩

/-- C4. When the diagnostics of the response hold no error (warnings or
none): `GetProviderSchema()` returns `NewBlock` of the top-level provider
block and a nil error; for every entry `(name, schema)` of the resource-type
mapping, `GetResourceTypeSchema(name)` returns `NewBlock` of the block of that
entry and a nil error; and for every entry of the data-source mapping,
`GetDataSourceSchema(name)` returns `NewBlock` of the block of that entry
and a nil error. -/
theorem schema_of_present_name (D : Deps CB B) (I : Interface P σ CB) (s : Sys P σ)
    (res : GetProviderSchemaResponse CB)
    (hres : (I.GetProviderSchema s.client.provider s.remote).1 = res)
    (h : HasErrors res.Diagnostics = false) :
    (GetProviderSchema D I s).1 = (D.NewBlock res.Provider.Block, none)
      ∧ (∀ name schema, (name, schema) ∈ res.ResourceTypes.entries →
          (GetResourceTypeSchema D I name s).1 = (D.NewBlock schema.Block, none))
      ∧ (∀ name schema, (name, schema) ∈ res.DataSources.entries →
          (GetDataSourceSchema D I name s).1 = (D.NewBlock schema.Block, none)) := by
  subst hres
  refine ⟨?_, ?_, ?_⟩
  · simp [GetProviderSchema, getSchema_of_no_errors D I s h]
  · intro name schema hmem
    simp [GetResourceTypeSchema, getSchema_of_no_errors D I s h, GoMap.get?,
      lookup_eq_some_of_mem name schema _
        (I.GetProviderSchema s.client.provider s.remote).1.ResourceTypes.nodup hmem]
  · intro name schema hmem
    simp [GetDataSourceSchema, getSchema_of_no_errors D I s h, GoMap.get?,
      lookup_eq_some_of_mem name schema _
        (I.GetProviderSchema s.client.provider s.remote).1.DataSources.nodup hmem]

/-- The statement of C4 at the example response, which carries a warning; the
name `a` is a key of both mappings and each method returns its own block. -/
theorem schema_of_present_name_witness :
    exampleResponse.Diagnostics ≠ []
      ∧ (GetResourceTypeSchema exampleDeps exampleProvider "a" (exampleSys [exampleResponse])).1
        = (some "Block(ra)", none)
      ∧ (GetDataSourceSchema exampleDeps exampleProvider "a" (exampleSys [exampleResponse])).1
        = (some "Block(da)", none)
      ∧ (GetProviderSchema exampleDeps exampleProvider (exampleSys [exampleResponse])).1
        = (exampleDeps.NewBlock exampleResponse.Provider.Block, none)
      ∧ (∀ name schema, (name, schema) ∈ exampleResponse.ResourceTypes.entries →
          (GetResourceTypeSchema exampleDeps exampleProvider name
            (exampleSys [exampleResponse])).1 = (exampleDeps.NewBlock schema.Block, none))
      ∧ (∀ name schema, (name, schema) ∈ exampleResponse.DataSources.entries →
          (GetDataSourceSchema exampleDeps exampleProvider name
            (exampleSys [exampleResponse])).1 = (exampleDeps.NewBlock schema.Block, none)) :=
  ⟨by decide, by decide, by decide, schema_of_present_name exampleDeps exampleProvider
    (exampleSys [exampleResponse]) exampleResponse rfl (by decide)⟩

/-- C5. When the diagnostics of the response hold an error, each of the five
query methods, for every name, returns a nil result and the error whose text
is "Failed to get schema from provider: " followed by the text of the
error of the diagnostics; none returns a block or a slice of names. -/
theorem queries_fail_on_error_diagnostics (D : Deps CB B) (I : Interface P σ CB) (s : Sys P σ)
    (res : GetProviderSchemaResponse CB)
    (hres : (I.GetProviderSchema s.client.provider s.remote).1 = res)
    (h : HasErrors res.Diagnostics = true) :
    ∃ e : GoError,
      e.msg = "Failed to get schema from provider: " ++ D.diagErrText res.Diagnostics
      ∧ (D.diagErrText res.Diagnostics).data <:+ e.msg.data
      ∧ (GetProviderSchema D I s).1 = (none, some e)
      ∧ (∀ name, (GetResourceTypeSchema D I name s).1 = (none, some e))
      ∧ (∀ name, (GetDataSourceSchema D I name s).1 = (none, some e))
      ∧ (ResourceTypes D I s).1 = (none, some e)
      ∧ (DataSources D I s).1 = (none, some e) := by
  subst hres
  refine ⟨Errorf "Failed to get schema from provider: "
    (D.diagErrText (I.GetProviderSchema s.client.provider s.remote).1.Diagnostics),
    rfl, ?_, ?_, ?_, ?_, ?_, ?_⟩
  · exact data_suffix_append _ _
  · simp [GetProviderSchema, getSchema_of_errors D I s h]
  · intro name
    simp [GetResourceTypeSchema, getSchema_of_errors D I s h]
  · intro name
    simp [GetDataSourceSchema, getSchema_of_errors D I s h]
  · simp [ResourceTypes, getSchema_of_errors D I s h]
  · simp [DataSources, getSchema_of_errors D I s h]

/-- The statement of C5 at the example response with an error diagnostic; `b`
is a resource type of that response and the lookup fails all the same. -/
theorem queries_fail_on_error_diagnostics_witness :
    "b" ∈ exampleFailure.ResourceTypes.keys
      ∧ (GetResourceTypeSchema exampleDeps exampleProvider "b" (exampleSys [exampleFailure])).1
        = (none, some ⟨"Failed to get schema from provider: slow; boom"⟩)
      ∧ ∃ e : GoError,
        e.msg = "Failed to get schema from provider: "
          ++ exampleDeps.diagErrText exampleFailure.Diagnostics
        ∧ (exampleDeps.diagErrText exampleFailure.Diagnostics).data <:+ e.msg.data
        ∧ (GetProviderSchema exampleDeps exampleProvider (exampleSys [exampleFailure])).1
          = (none, some e)
        ∧ (∀ name, (GetResourceTypeSchema exampleDeps exampleProvider name
            (exampleSys [exampleFailure])).1 = (none, some e))
        ∧ (∀ name, (GetDataSourceSchema exampleDeps exampleProvider name
            (exampleSys [exampleFailure])).1 = (none, some e))
        ∧ (ResourceTypes exampleDeps exampleProvider (exampleSys [exampleFailure])).1
          = (none, some e)
        ∧ (DataSources exampleDeps exampleProvider (exampleSys [exampleFailure])).1
          = (none, some e) :=
  ⟨by decide, by decide, queries_fail_on_error_diagnostics exampleDeps exampleProvider
    (exampleSys [exampleFailure]) exampleFailure rfl (by decide)⟩

/-- C10 as stated does not hold for remote calls. The provider that the
constructor stores keeps the schema it has fetched. On a client of such a
provider two `ResourceTypes()` queries make one remote schema call, not two,
and the second query repeats the answer of the first although the plugin
process would answer a second remote call differently; a provider that
makes the remote call every time gives the other answer. -/
theorem queries_call_provider_once_counterexample :
    [Query.resourceTypes, Query.resourceTypes].length = 2
      ∧ (runQueries exampleDeps exampleKeeping [Query.resourceTypes, Query.resourceTypes]
          exampleKeptSys).2.remote.process.schemaCalls = 1
      ∧ (runQueries exampleDeps exampleKeeping [Query.resourceTypes, Query.resourceTypes]
          exampleKeptSys).2.remote.process.schemaCalls
        ≠ [Query.resourceTypes, Query.resourceTypes].length
      ∧ (runQueries exampleDeps exampleKeeping [Query.resourceTypes, Query.resourceTypes]
          exampleKeptSys).1
        = [QueryResult.names (some ["a", "b", "c"]) none,
            QueryResult.names (some ["a", "b", "c"]) none]
      ∧ (runQueries exampleDeps (counted exampleProvider)
          [Query.resourceTypes, Query.resourceTypes]
          ⟨⟨()⟩, exampleKeptSys.remote.process⟩).1
        = [QueryResult.names (some ["a", "b", "c"]) none, QueryResult.names (some []) none]
      ∧ (runQueries exampleDeps (counted exampleProvider)
          [Query.resourceTypes, Query.resourceTypes]
          ⟨⟨()⟩, exampleKeptSys.remote.process⟩).2.remote.schemaCalls = 2 := by
  decide

/-- C10, amended. The client itself caches nothing. Every query method,
whether it succeeds or fails, calls the method `GetProviderSchema` of the
provider it holds exactly once and never its `Close`: it leaves the state
that one call of `GetProviderSchema` of the provider leaves, with the client
struct as it was; its result is the same for any client whose own call gets
the same response; and with every call of the provider counted, a sequence
of queries raises the count of `GetProviderSchema` calls by the length of the
sequence, leaves the count of `Close` calls alone and leaves the client
struct as it was. Whether a call of the method reaches the plugin process is
up to the provider. -/
theorem queries_call_provider_once {Q τ : Type} (D : Deps CB B) (I : Interface P σ CB)
    (s : Sys P σ) (q : Query) :
    (runQuery D I q s).2
        = { s with remote := (I.GetProviderSchema s.client.provider s.remote).2 }
      ∧ (runQuery D I q s).2.client = s.client
      ∧ (∀ (J : Interface Q τ CB) (t : Sys Q τ),
          (J.GetProviderSchema t.client.provider t.remote).1
            = (I.GetProviderSchema s.client.provider s.remote).1 →
          (runQuery D J q t).1 = (runQuery D I q s).1)
      ∧ (∀ (c : Counted σ),
          (runQuery D (counted I) q ⟨s.client, c⟩).2.remote.schemaCalls = c.schemaCalls + 1
          ∧ (runQuery D (counted I) q ⟨s.client, c⟩).2.remote.closeCalls = c.closeCalls)
      ∧ (∀ (qs : List Query) (c : Counted σ),
          (runQueries D (counted I) qs ⟨s.client, c⟩).2.client = s.client
          ∧ (runQueries D (counted I) qs ⟨s.client, c⟩).2.remote.schemaCalls
            = c.schemaCalls + qs.length
          ∧ (runQueries D (counted I) qs ⟨s.client, c⟩).2.remote.closeCalls = c.closeCalls) := by
  refine ⟨runQuery_state D I q s, by rw [runQuery_state], ?_, ?_, ?_⟩
  · intro J t hres
    exact runQuery_result_congr D I J q s t hres.symm
  · intro c
    rw [runQuery_state]
    exact ⟨rfl, rfl⟩
  · intro qs c
    exact runQueries_counted D I qs s.client c

/-- The amended C10 at the example provider, which answers every call
afresh, the first with resource types `b`, `a`, `c` and the second with none:
two `ResourceTypes()` queries in a row return the two different answers. -/
theorem queries_call_provider_once_witness :
    (runQueries exampleDeps exampleProvider [Query.resourceTypes, Query.resourceTypes]
        (exampleSys [exampleResponse, exampleEmpty])).1
        = [QueryResult.names (some ["a", "b", "c"]) none, QueryResult.names (some []) none]
      ∧ (runQueries exampleDeps (counted exampleProvider)
          [Query.resourceTypes, Query.dataSourceSchema "q", Query.providerSchema]
          ⟨⟨()⟩, ⟨[exampleResponse, exampleFailure], 0, 0⟩⟩).2.remote.schemaCalls = 0 + 3
      ∧ (runQueries exampleDeps (counted exampleProvider)
          [Query.resourceTypes, Query.dataSourceSchema "q", Query.providerSchema]
          ⟨⟨()⟩, ⟨[exampleResponse, exampleFailure], 0, 0⟩⟩).2.remote.closeCalls = 0 :=
  ⟨by decide,
    ((queries_call_provider_once (Q := Unit) (τ := Unit) exampleDeps exampleProvider
      (exampleSys []) Query.resourceTypes).2.2.2.2
      [Query.resourceTypes, Query.dataSourceSchema "q", Query.providerSchema]
      ⟨[exampleResponse, exampleFailure], 0, 0⟩).2⟩

end Claims

/-! ## The constructor -/

/-- C6. Once discovery, the handshake and `Dispense` have succeeded, the
negotiated protocol version decides the outcome of `NewGRPCClient`: with
version 5 and the protocol 5 provider dispensed, the result is a client
holding that provider, with the plugin client stored in it, and a nil error;
with version 6 and the protocol 6 provider dispensed, likewise for protocol
6; and with any other version `v`, whatever was dispensed, the result is a
nil client and the error "unknown protocol version: " followed by `v` in
decimal. -/
theorem NewGRPCClient_by_version (E : Env) (providerName : String) (options : Options)
    (h : Host) (pluginMeta : PluginMeta) (version : Int) (raw : Raw)
    (hfind : E.findPlugin "provider" providerName options.RootDir = Except.ok pluginMeta)
    (hstart : E.start (newGRPCClientConfig E pluginMeta options) = Except.ok version)
    (hdisp : E.dispense (newGRPCClientConfig E pluginMeta options) ProviderPluginName
      = Except.ok raw) :
    (version = 5 → ∀ p, raw = Raw.provider5 p →
        (NewGRPCClient E providerName options h).1
          = Outcome.ret (some ⟨ProviderValue.v5
              { p with PluginClient := some ⟨newGRPCClientConfig E pluginMeta options⟩ }⟩, none))
      ∧ (version = 6 → ∀ p, raw = Raw.provider6 p →
        (NewGRPCClient E providerName options h).1
          = Outcome.ret (some ⟨ProviderValue.v6
              { p with PluginClient := some ⟨newGRPCClientConfig E pluginMeta options⟩ }⟩, none))
      ∧ (version ≠ 5 → version ≠ 6 →
        (NewGRPCClient E providerName options h).1
          = Outcome.ret (none, some ⟨"unknown protocol version: " ++ toString version⟩)) := by
  refine ⟨?_, ?_, ?_⟩
  · intro hv p hraw
    subst hv hraw
    simp [NewGRPCClient, hfind, pluginNewClient, pluginClientClient, hstart, pluginDispense,
      hdisp, pluginNegotiatedVersion]
  · intro hv p hraw
    subst hv hraw
    simp [NewGRPCClient, hfind, pluginNewClient, pluginClientClient, hstart, pluginDispense,
      hdisp, pluginNegotiatedVersion]
  · intro h5 h6
    simp [NewGRPCClient, hfind, pluginNewClient, pluginClientClient, hstart, pluginDispense,
      hdisp, pluginNegotiatedVersion, h5, h6]

/-- The statement of C6 at the example environment with version 7 negotiated
and a protocol 6 provider dispensed: the error reads
"unknown protocol version: 7". -/
theorem NewGRPCClient_by_version_witness :
    (NewGRPCClient (exampleEnv 7 (Except.ok (Raw.provider6 ⟨none, 1⟩))) "aws" exampleOptions
        exampleHost).1 = Outcome.ret (none, some ⟨"unknown protocol version: 7"⟩)
      ∧ (NewGRPCClient (exampleEnv 6 (Except.ok (Raw.provider6 ⟨none, 1⟩))) "aws" exampleOptions
        exampleHost).1 = Outcome.ret (some ⟨ProviderValue.v6 ⟨some ⟨newGRPCClientConfig
          (exampleEnv 6 (Except.ok (Raw.provider6 ⟨none, 1⟩)))
          ⟨"aws", "3.0.0", "/plugins/terraform-provider-aws"⟩ exampleOptions⟩, 1⟩⟩, none)
      ∧ (NewGRPCClient (exampleEnv (-1) (Except.ok (Raw.other "x"))) "aws" exampleOptions
        exampleHost).1 = Outcome.ret (none, some ⟨"unknown protocol version: -1"⟩) :=
  ⟨(NewGRPCClient_by_version (exampleEnv 7 (Except.ok (Raw.provider6 ⟨none, 1⟩))) "aws"
      exampleOptions exampleHost ⟨"aws", "3.0.0", "/plugins/terraform-provider-aws"⟩ 7
      (Raw.provider6 ⟨none, 1⟩) rfl rfl rfl).2.2 (by decide) (by decide),
    by decide, by decide⟩

/-- C7. With the plugin library working from the table
`tfplugin.VersionedPlugins`: for a provider that discovery finds and whose
handshake succeeds and negotiates version 5 or 6, `NewGRPCClient` returns a
non-nil client and a nil error; it neither returns an error nor panics.
`Dispense` of the provider plugin is then a lookup in the table, which finds
the provider of the negotiated version. -/
theorem NewGRPCClient_succeeds (W : World) (providerName : String) (options : Options)
    (h : Host) (pluginMeta : PluginMeta) (version : Int)
    (hfind : W.findPlugin "provider" providerName options.RootDir = Except.ok pluginMeta)
    (hstart : (libraryEnv W).start (newGRPCClientConfig (libraryEnv W) pluginMeta options)
      = Except.ok version)
    (hv : version = 5 ∨ version = 6) :
    ∃ c, (NewGRPCClient (libraryEnv W) providerName options h).1 = Outcome.ret (some c, none)
      ∧ (c.provider = ProviderValue.v5 ⟨some ⟨newGRPCClientConfig (libraryEnv W) pluginMeta
            options⟩, W.conn (newGRPCClientConfig (libraryEnv W) pluginMeta options)⟩
        ∨ c.provider = ProviderValue.v6 ⟨some ⟨newGRPCClientConfig (libraryEnv W) pluginMeta
            options⟩, W.conn (newGRPCClientConfig (libraryEnv W) pluginMeta options)⟩) := by
  have hfindE : (libraryEnv W).findPlugin "provider" providerName options.RootDir
      = Except.ok pluginMeta := hfind
  have hstartL : libraryStart (newGRPCClientConfig (libraryEnv W) pluginMeta options)
      (W.announce (newGRPCClientConfig (libraryEnv W) pluginMeta options))
      = Except.ok version := hstart
  have htable : (newGRPCClientConfig (libraryEnv W) pluginMeta options).VersionedPlugins
      = tfpluginVersionedPlugins := rfl
  rcases hv with hv | hv
  · subst hv
    have hdisp : (libraryEnv W).dispense (newGRPCClientConfig (libraryEnv W) pluginMeta options)
        ProviderPluginName = Except.ok (Raw.provider5
          ⟨none, W.conn (newGRPCClientConfig (libraryEnv W) pluginMeta options)⟩) := by
      show (match libraryStart (newGRPCClientConfig (libraryEnv W) pluginMeta options)
          (W.announce (newGRPCClientConfig (libraryEnv W) pluginMeta options)) with
        | Except.error err => Except.error err
        | Except.ok version => libraryDispense
            (newGRPCClientConfig (libraryEnv W) pluginMeta options) version
            (W.conn (newGRPCClientConfig (libraryEnv W) pluginMeta options))
            ProviderPluginName) = _
      rw [hstartL]
      simp only [libraryDispense, htable]
      rfl
    refine ⟨_, ?_, Or.inl rfl⟩
    simp [NewGRPCClient, hfindE, pluginNewClient, pluginClientClient, hstart, pluginDispense,
      hdisp, pluginNegotiatedVersion]
  · subst hv
    have hdisp : (libraryEnv W).dispense (newGRPCClientConfig (libraryEnv W) pluginMeta options)
        ProviderPluginName = Except.ok (Raw.provider6
          ⟨none, W.conn (newGRPCClientConfig (libraryEnv W) pluginMeta options)⟩) := by
      show (match libraryStart (newGRPCClientConfig (libraryEnv W) pluginMeta options)
          (W.announce (newGRPCClientConfig (libraryEnv W) pluginMeta options)) with
        | Except.error err => Except.error err
        | Except.ok version => libraryDispense
            (newGRPCClientConfig (libraryEnv W) pluginMeta options) version
            (W.conn (newGRPCClientConfig (libraryEnv W) pluginMeta options))
            ProviderPluginName) = _
      rw [hstartL]
      simp only [libraryDispense, htable]
      rfl
    refine ⟨_, ?_, Or.inr rfl⟩
    simp [NewGRPCClient, hfindE, pluginNewClient, pluginClientClient, hstart, pluginDispense,
      hdisp, pluginNegotiatedVersion]

/-- The statement of C7 in the example world with a plugin that announces
protocol 6: the client holds the protocol 6 provider. -/
theorem NewGRPCClient_succeeds_witness :
    (NewGRPCClient (libraryEnv (exampleWorld (Except.ok 6))) "aws" exampleOptions exampleHost).2.running
        = ["/plugins/terraform-provider-aws", "/plugins/terraform-provider-null"]
      ∧ ∃ c, (NewGRPCClient (libraryEnv (exampleWorld (Except.ok 6))) "aws" exampleOptions
          exampleHost).1 = Outcome.ret (some c, none)
        ∧ (c.provider = ProviderValue.v5 ⟨some ⟨newGRPCClientConfig
              (libraryEnv (exampleWorld (Except.ok 6)))
              ⟨"aws", "3.0.0", "/plugins/terraform-provider-aws"⟩ exampleOptions⟩, 3⟩
          ∨ c.provider = ProviderValue.v6 ⟨some ⟨newGRPCClientConfig
              (libraryEnv (exampleWorld (Except.ok 6)))
              ⟨"aws", "3.0.0", "/plugins/terraform-provider-aws"⟩ exampleOptions⟩, 3⟩) :=
  ⟨by decide, NewGRPCClient_succeeds (exampleWorld (Except.ok 6)) "aws" exampleOptions
    exampleHost ⟨"aws", "3.0.0", "/plugins/terraform-provider-aws"⟩ 6 rfl rfl
    (Or.inr rfl)⟩

/-- C9. When discovery does not find the provider, `NewGRPCClient` returns a
nil client and the discovery error itself, and the host is as before: no
subprocess has been started and no call into the plugin library has been
made (no client created, no handshake, no `Dispense`). -/
theorem NewGRPCClient_discovery_failure (E : Env) (providerName : String) (options : Options)
    (h : Host) (err : GoError)
    (hfind : E.findPlugin "provider" providerName options.RootDir = Except.error err) :
    (NewGRPCClient E providerName options h).1 = Outcome.ret (none, some err)
      ∧ (NewGRPCClient E providerName options h).2 = h
      ∧ (NewGRPCClient E providerName options h).2.running = h.running
      ∧ (NewGRPCClient E providerName options h).2.calls = h.calls := by
  simp [NewGRPCClient, hfind]

/-- The statement of C9 at the example environment, where the provider
`nosuch` is not found. -/
theorem NewGRPCClient_discovery_failure_witness :
    (NewGRPCClient (exampleEnv 5 (Except.ok (Raw.provider5 ⟨none, 9⟩))) "nosuch"
        exampleOptions exampleHost).1
        = Outcome.ret (none, some ⟨"Failed to find plugin: nosuch"⟩)
      ∧ (NewGRPCClient (exampleEnv 5 (Except.ok (Raw.provider5 ⟨none, 9⟩))) "nosuch"
        exampleOptions exampleHost).2 = exampleHost
      ∧ (NewGRPCClient (exampleEnv 5 (Except.ok (Raw.provider5 ⟨none, 9⟩))) "nosuch"
        exampleOptions exampleHost).2.running = exampleHost.running
      ∧ (NewGRPCClient (exampleEnv 5 (Except.ok (Raw.provider5 ⟨none, 9⟩))) "nosuch"
        exampleOptions exampleHost).2.calls = exampleHost.calls :=
  NewGRPCClient_discovery_failure (exampleEnv 5 (Except.ok (Raw.provider5 ⟨none, 9⟩)))
    "nosuch" exampleOptions exampleHost ⟨"Failed to find plugin: nosuch"⟩ rfl

end Tfschema
